import Mathlib

/-!
Verification of the rusty-paserk core (PASERK key serialization):
the textual codec (`src/key/plaintext.rs`, `src/pke.rs`), key-id
derivation (`src/id.rs`) and the V3/V4 seal engines (`src/pke.rs`).

Modelling conventions:
  - Byte strings (both raw keys and ASCII text) are `List Nat`, each
    element intended to be `< 256`.  All the Rust strings involved are
    pure ASCII, so `str` and `[u8]` coincide byte for byte.
  - Fallible Rust paths returning `Result<_, PasetoError>` become
    `Except PasetoError _`.  A Rust `panic!` (from `.unwrap()` on
    external-crate parsing) is modelled as `Option.none` in an
    `Option _` result: it is neither a success nor an error value.
  - External crypto crates (p384, x25519-dalek, curve25519-dalek,
    sha2, blake2, hmac, aes/ctr, chacha20) are not part of this
    repository; they enter the development as abstract primitive
    bundles (`V3Prims`, `V4Prims`).  Points of P-384 are identified
    with their canonical 49-byte compressed SEC1 encoding, so
    `PublicKey::from_sec1_bytes` becomes a validity test and
    `EncodedPoint::compress` the identity.  Theorems that need
    algebraic facts about the primitives (Diffie-Hellman agreement,
    keystream-cipher involution, Edwards/Montgomery birational
    equivalence) take those facts as explicit hypotheses; concrete
    toy instantiations satisfying the hypotheses witness them.
-/

/-- `base64::DecodeError` of the `base64` crate (the variants used by
the repository; payload data of `InvalidByte` is dropped). -/
inductive DecodeError
  | InvalidByte
  | InvalidLength
  | InvalidLastSymbol
  deriving DecidableEq

/-- The `PasetoError` discriminants of `rusty_paseto` that the
repository's code can produce or that the spec names. -/
inductive PasetoError
  | WrongHeader
  | PayloadBase64Decode (source : DecodeError)
  | InvalidSignature
  | InvalidKey
  deriving DecidableEq

/-- URL-safe Base64 alphabet, index to ASCII code:
indices 0..25 map to A..Z (65..90), 26..51 to a..z (97..122),
52..61 to 0..9 (48..57), 62 to the minus sign (45), 63 to the
underscore (95). -/
def b64Chr (n : Nat) : Nat :=
  if n < 26 then 65 + n
  else if n < 52 then 71 + n
  else if n < 62 then n - 4
  else if n = 62 then 45
  else 95

/-- URL-safe Base64 alphabet, ASCII code to index (`none` on a
non-alphabet byte). -/
def b64Idx (c : Nat) : Option Nat :=
  if 65 ≤ c ∧ c ≤ 90 then some (c - 65)
  else if 97 ≤ c ∧ c ≤ 122 then some (c - 71)
  else if 48 ≤ c ∧ c ≤ 57 then some (c + 4)
  else if c = 45 then some 62
  else if c = 95 then some 63
  else none

theorem b64Idx_b64Chr : ∀ n < 64, b64Idx (b64Chr n) = some n := by decide

/-- Unpadded URL-safe Base64 encoding of a byte string, as produced by
`write_b64` / `base64ct::Base64UrlUnpadded::encode` on the Rust side
(3 input bytes per 4 output characters, 1 or 2 trailing bytes become
2 or 3 trailing characters). -/
def b64Encode : List Nat → List Nat
  | [] => []
  | [b1] => [b64Chr (b1 / 4), b64Chr (b1 % 4 * 16)]
  | [b1, b2] => [b64Chr (b1 / 4), b64Chr (b1 % 4 * 16 + b2 / 16), b64Chr (b2 % 16 * 4)]
  | b1 :: b2 :: b3 :: rest =>
    b64Chr (b1 / 4) :: b64Chr (b1 % 4 * 16 + b2 / 16) ::
      b64Chr (b2 % 16 * 4 + b3 / 64) :: b64Chr (b3 % 64) :: b64Encode rest

/-- Unpadded URL-safe Base64 decoding, as implemented by
`base64::decode_config_slice` with `URL_SAFE_NO_PAD` (also the model
for `read_b64`): a lone trailing character is `InvalidLength`, a
non-alphabet byte is `InvalidByte`, non-zero trailing bits in the last
character are `InvalidLastSymbol`. -/
def b64DecodeBytes : List Nat → Except DecodeError (List Nat)
  | [] => Except.ok []
  | [_] => Except.error DecodeError.InvalidLength
  | [c1, c2] =>
    match b64Idx c1 with
    | none => Except.error DecodeError.InvalidByte
    | some s1 =>
      match b64Idx c2 with
      | none => Except.error DecodeError.InvalidByte
      | some s2 =>
        if s2 % 16 = 0 then Except.ok [s1 * 4 + s2 / 16]
        else Except.error DecodeError.InvalidLastSymbol
  | [c1, c2, c3] =>
    match b64Idx c1 with
    | none => Except.error DecodeError.InvalidByte
    | some s1 =>
      match b64Idx c2 with
      | none => Except.error DecodeError.InvalidByte
      | some s2 =>
        match b64Idx c3 with
        | none => Except.error DecodeError.InvalidByte
        | some s3 =>
          if s3 % 4 = 0 then Except.ok [s1 * 4 + s2 / 16, s2 % 16 * 16 + s3 / 4]
          else Except.error DecodeError.InvalidLastSymbol
  | c1 :: c2 :: c3 :: c4 :: rest =>
    match b64Idx c1 with
    | none => Except.error DecodeError.InvalidByte
    | some s1 =>
      match b64Idx c2 with
      | none => Except.error DecodeError.InvalidByte
      | some s2 =>
        match b64Idx c3 with
        | none => Except.error DecodeError.InvalidByte
        | some s3 =>
          match b64Idx c4 with
          | none => Except.error DecodeError.InvalidByte
          | some s4 =>
            match b64DecodeBytes rest with
            | Except.error e => Except.error e
            | Except.ok bs =>
              Except.ok ((s1 * 4 + s2 / 16) :: (s2 % 16 * 16 + s3 / 4) :: (s3 % 4 * 64 + s4) :: bs)

/-- Length of the unpadded Base64 encoding of `n` bytes:
`ceil (4 * n / 3)`. -/
def b64Len (n : Nat) : Nat := (n * 4 + 2) / 3

theorem b64Encode_length : ∀ bs : List Nat, (b64Encode bs).length = b64Len bs.length
  | [] => rfl
  | [_] => by simp [b64Encode, b64Len]
  | [_, _] => by simp [b64Encode, b64Len]
  | _ :: _ :: _ :: rest => by
    simp only [b64Encode, List.length_cons, b64Encode_length rest, b64Len]
    omega

/-- Decoding inverts encoding on genuine byte strings. -/
theorem b64DecodeBytes_b64Encode :
    ∀ bs : List Nat, (∀ b ∈ bs, b < 256) → b64DecodeBytes (b64Encode bs) = Except.ok bs
  | [], _ => rfl
  | [b1], h => by
    have h1 : b1 < 256 := h b1 (by simp)
    simp only [b64Encode, b64DecodeBytes]
    rw [b64Idx_b64Chr (b1 / 4) (by omega), b64Idx_b64Chr (b1 % 4 * 16) (by omega)]
    simp only
    rw [if_pos (by omega)]
    have e1 : b1 / 4 * 4 + b1 % 4 * 16 / 16 = b1 := by omega
    rw [e1]
  | [b1, b2], h => by
    have h1 : b1 < 256 := h b1 (by simp)
    have h2 : b2 < 256 := h b2 (by simp)
    simp only [b64Encode, b64DecodeBytes]
    rw [b64Idx_b64Chr (b1 / 4) (by omega), b64Idx_b64Chr (b1 % 4 * 16 + b2 / 16) (by omega),
      b64Idx_b64Chr (b2 % 16 * 4) (by omega)]
    simp only
    rw [if_pos (by omega)]
    have e1 : b1 / 4 * 4 + (b1 % 4 * 16 + b2 / 16) / 16 = b1 := by omega
    have e2 : (b1 % 4 * 16 + b2 / 16) % 16 * 16 + b2 % 16 * 4 / 4 = b2 := by omega
    rw [e1, e2]
  | b1 :: b2 :: b3 :: rest, h => by
    have h1 : b1 < 256 := h b1 (by simp)
    have h2 : b2 < 256 := h b2 (by simp)
    have h3 : b3 < 256 := h b3 (by simp)
    have ih := b64DecodeBytes_b64Encode rest (fun b hb => h b (by simp [hb]))
    simp only [b64Encode]
    show b64DecodeBytes
      (b64Chr (b1 / 4) :: b64Chr (b1 % 4 * 16 + b2 / 16) ::
        b64Chr (b2 % 16 * 4 + b3 / 64) :: b64Chr (b3 % 64) :: b64Encode rest) =
      Except.ok (b1 :: b2 :: b3 :: rest)
    rw [b64DecodeBytes]
    rw [b64Idx_b64Chr (b1 / 4) (by omega), b64Idx_b64Chr (b1 % 4 * 16 + b2 / 16) (by omega),
      b64Idx_b64Chr (b2 % 16 * 4 + b3 / 64) (by omega), b64Idx_b64Chr (b3 % 64) (by omega)]
    simp only [ih]
    congr 1
    refine List.cons_eq_cons.mpr ⟨by omega, List.cons_eq_cons.mpr ⟨by omega, ?_⟩⟩
    exact List.cons_eq_cons.mpr ⟨by omega, rfl⟩

/-- ASCII bytes of the version header string of V1, `"k1."`. -/
def k1Header : List Nat := [107, 49, 46]

/-- ASCII bytes of the version header string of V2, `"k2."`. -/
def k2Header : List Nat := [107, 50, 46]

/-- ASCII bytes of the version header string of V3, `"k3."` (the
`KEY_HEADER` constant of `V3`). -/
def k3Header : List Nat := [107, 51, 46]

/-- ASCII bytes of the version header string of V4, `"k4."` (the
`KEY_HEADER` constant of `V4`). -/
def k4Header : List Nat := [107, 52, 46]

/-- ASCII bytes of the sealed-key type tag `"seal."`. -/
def sealTag : List Nat := [115, 101, 97, 108, 46]

/-- ASCII bytes of `"local."`. -/
def localTag : List Nat := [108, 111, 99, 97, 108, 46]

/-- ASCII bytes of `"secret."`. -/
def secretTag : List Nat := [115, 101, 99, 114, 101, 116, 46]

/-- ASCII bytes of `"public."`. -/
def publicTag : List Nat := [112, 117, 98, 108, 105, 99, 46]

/-- ASCII bytes of `"lid."`. -/
def lidTag : List Nat := [108, 105, 100, 46]

/-- ASCII bytes of `"sid."`. -/
def sidTag : List Nat := [115, 105, 100, 46]

/-- ASCII bytes of `"pid."`. -/
def pidTag : List Nat := [112, 105, 100, 46]

/-- Model of Rust's `str::strip_prefix p s`: `some rest` when `s` is
`p` followed by `rest`, otherwise `none`. -/
def dropHeader : List Nat → List Nat → Option (List Nat)
  | [], s => some s
  | _ :: _, [] => none
  | p :: ps, c :: cs => if p = c then dropHeader ps cs else none

theorem dropHeader_append (p r : List Nat) : dropHeader p (p ++ r) = some r := by
  induction p with
  | nil => rfl
  | cons a ps ih => simp [dropHeader, ih]

/-- `SealedKey<V>` of `src/pke.rs`: the triple of the authentication
tag, the ephemeral public key and the encrypted data key.  The
per-version lengths (V3: 48/49/32, V4: 32/32/32) are stated as
hypotheses where theorems need them. -/
structure SealedParts where
  tag : List Nat
  ephemeral_public_key : List Nat
  encrypted_data_key : List Nat
  deriving DecidableEq

/-- `SealedVersion::split_total`: carve the decoded byte string along
the `tag ∥ epk ∥ edk` boundaries (`GenericArray::split` twice). -/
def split_total (tagLen epkLen : Nat) (total : List Nat) : SealedParts :=
  { tag := total.take tagLen
    ephemeral_public_key := (total.drop tagLen).take epkLen
    encrypted_data_key := (total.drop tagLen).drop epkLen }

/-- `SealedVersion::join_total`: `tag.concat(epk).concat(edk)`. -/
def join_total (sealed : SealedParts) : List Nat :=
  sealed.tag ++ sealed.ephemeral_public_key ++ sealed.encrypted_data_key

/-- `FromStr for SealedKey<V>` (`src/pke.rs`): strip `KEY_HEADER` and
`"seal."` (each missing prefix is `WrongHeader`), reject when the
payload length rounded up to a Base64 quartet does not give the
version's total byte length, decode, reject when the decoded length
is not the total, and split.  No curve or hash primitive is involved:
the definition takes none. -/
def sealedFromStr (kh : List Nat) (tagLen epkLen totalLen : Nat) (s : List Nat) :
    Except PasetoError SealedParts :=
  match dropHeader kh s with
  | none => Except.error PasetoError.WrongHeader
  | some s1 =>
    match dropHeader sealTag s1 with
    | none => Except.error PasetoError.WrongHeader
    | some s2 =>
      if (s2.length + 3) / 4 * 3 ≠ totalLen then
        Except.error (PasetoError.PayloadBase64Decode DecodeError.InvalidLength)
      else
        match b64DecodeBytes s2 with
        | Except.error e => Except.error (PasetoError.PayloadBase64Decode e)
        | Except.ok bytes =>
          if bytes.length ≠ totalLen then
            Except.error (PasetoError.PayloadBase64Decode DecodeError.InvalidLength)
          else Except.ok (split_total tagLen epkLen bytes)

/-- `Display for SealedKey<V>` (`src/pke.rs`):
`KEY_HEADER ∥ "seal." ∥ write_b64(join_total)`. -/
def sealedToString (kh : List Nat) (sealed : SealedParts) : List Nat :=
  kh ++ sealTag ++ b64Encode (join_total sealed)

/-- `FromStr for SealedKey<V3>`: `TotalLen = 129`, tag 48, epk 49. -/
def sealedFromStrV3 : List Nat → Except PasetoError SealedParts :=
  sealedFromStr k3Header 48 49 129

/-- `FromStr for SealedKey<V4>`: `TotalLen = 96`, tag 32, epk 32. -/
def sealedFromStrV4 : List Nat → Except PasetoError SealedParts :=
  sealedFromStr k4Header 32 32 96

/-- `Display for SealedKey<V3>`. -/
def sealedToStringV3 : SealedParts → List Nat := sealedToString k3Header

/-- `Display for SealedKey<V4>`. -/
def sealedToStringV4 : SealedParts → List Nat := sealedToString k4Header

/-- Modelled from the spec: `read_b64` of the repository's `lib.rs` is
not under `src/`; per spec section 4.1, `decode_into` decodes into a
fixed-size buffer, rejecting non-alphabet characters and any input
whose decoded length differs from the expected fixed size. -/
def read_b64 (expectedLen : Nat) (s : List Nat) : Except PasetoError (List Nat) :=
  match b64DecodeBytes s with
  | Except.error e => Except.error (PasetoError.PayloadBase64Decode e)
  | Except.ok bytes =>
    if bytes.length = expectedLen then Except.ok bytes
    else Except.error (PasetoError.PayloadBase64Decode DecodeError.InvalidLength)

/-- `Display for PlaintextKey<V, K>` (`src/key/plaintext.rs`):
`V::KEY_HEADER ∥ K::HEADER ∥ write_b64(key bytes)`.  (`write_b64` of
`lib.rs` is modelled from the spec as unpadded URL-safe Base64.) -/
def plaintextToString (kh ktag key : List Nat) : List Nat :=
  kh ++ ktag ++ b64Encode key

/-- `FromStr for PlaintextKey<V, K>` (`src/key/plaintext.rs`): strip
`V::KEY_HEADER` then `K::HEADER`, failing with `WrongHeader`, then
`read_b64` the payload into the key buffer of length `keyLen`. -/
def plaintextFromStr (kh ktag : List Nat) (keyLen : Nat) (s : List Nat) :
    Except PasetoError (List Nat) :=
  match dropHeader kh s with
  | none => Except.error PasetoError.WrongHeader
  | some s1 =>
    match dropHeader ktag s1 with
    | none => Except.error PasetoError.WrongHeader
    | some s2 => read_b64 keyLen s2

theorem join_total_length (sealed : SealedParts) :
    (join_total sealed).length =
      sealed.tag.length + sealed.ephemeral_public_key.length +
        sealed.encrypted_data_key.length := by
  simp [join_total]
  omega

theorem split_total_join_total (sealed : SealedParts) (tagLen epkLen : Nat)
    (htag : sealed.tag.length = tagLen)
    (hepk : sealed.ephemeral_public_key.length = epkLen) :
    split_total tagLen epkLen (join_total sealed) = sealed := by
  rcases sealed with ⟨t, e, d⟩
  simp only [split_total, join_total] at *
  rw [List.append_assoc, List.take_left' htag, List.drop_left' htag,
    List.take_left' hepk, List.drop_left' hepk]

theorem b64_quartet_precheck (t : Nat) (h3 : t % 3 = 0) : (b64Len t + 3) / 4 * 3 = t := by
  unfold b64Len
  omega

/-- Round-trip of the sealed textual codec, generic in the header and
the three region lengths (their sum divisible by 3, as it is for both
versions: 129 and 96). -/
theorem sealed_roundtrip_aux (kh : List Nat) (tagLen epkLen dl : Nat) (parts : SealedParts)
    (htag : parts.tag.length = tagLen)
    (hepk : parts.ephemeral_public_key.length = epkLen)
    (hedk : parts.encrypted_data_key.length = dl)
    (h3 : (tagLen + epkLen + dl) % 3 = 0)
    (hb : ∀ b ∈ join_total parts, b < 256) :
    sealedFromStr kh tagLen epkLen (tagLen + epkLen + dl) (sealedToString kh parts) =
      Except.ok parts := by
  have hlen : (join_total parts).length = tagLen + epkLen + dl := by
    rw [join_total_length, htag, hepk, hedk]
  unfold sealedToString sealedFromStr
  simp only [List.append_assoc, dropHeader_append]
  have hpre : ((b64Encode (join_total parts)).length + 3) / 4 * 3 = tagLen + epkLen + dl := by
    rw [b64Encode_length, hlen]
    exact b64_quartet_precheck _ h3
  rw [if_neg (by omega)]
  simp only [b64DecodeBytes_b64Encode _ hb]
  rw [if_neg (by omega)]
  rw [split_total_join_total parts tagLen epkLen htag hepk]

/-- Claim C6: for every valid key and every sealed envelope, parsing
the textual serialization returns the original value.  Plaintext keys:
`parse (KEY_HEADER ∥ K::HEADER ∥ b64(key))` at the key's length gives
the key back; sealed keys: `parse (to_string sealed) = sealed` for V3
(48/49/32 regions) and V4 (32/32/32 regions).  `write_b64`/`read_b64`
of `lib.rs` are modelled from the spec (section 4.1). -/
theorem c6_parse_toString_roundtrip :
    (∀ kh ktag key : List Nat, (∀ b ∈ key, b < 256) →
      plaintextFromStr kh ktag key.length (plaintextToString kh ktag key) = Except.ok key) ∧
    (∀ parts : SealedParts, parts.tag.length = 48 →
      parts.ephemeral_public_key.length = 49 → parts.encrypted_data_key.length = 32 →
      (∀ b ∈ join_total parts, b < 256) →
      sealedFromStrV3 (sealedToStringV3 parts) = Except.ok parts) ∧
    (∀ parts : SealedParts, parts.tag.length = 32 →
      parts.ephemeral_public_key.length = 32 → parts.encrypted_data_key.length = 32 →
      (∀ b ∈ join_total parts, b < 256) →
      sealedFromStrV4 (sealedToStringV4 parts) = Except.ok parts) := by
  refine ⟨?_, ?_, ?_⟩
  · intro kh ktag key hb
    unfold plaintextToString plaintextFromStr
    simp only [List.append_assoc, dropHeader_append]
    unfold read_b64
    simp [b64DecodeBytes_b64Encode _ hb]
  · intro parts h1 h2 h3 hb
    exact sealed_roundtrip_aux k3Header 48 49 32 parts h1 h2 h3 (by decide) hb
  · intro parts h1 h2 h3 hb
    exact sealed_roundtrip_aux k4Header 32 32 32 parts h1 h2 h3 (by decide) hb

/-- Witness for C6 at concrete inputs: a 2-byte plaintext key and a
V4-shaped sealed envelope of zero bytes. -/
theorem c6_witness :
    plaintextFromStr k4Header localTag [10, 20].length
        (plaintextToString k4Header localTag [10, 20]) = Except.ok [10, 20] ∧
      sealedFromStrV4
          (sealedToStringV4
            ⟨List.replicate 32 0, List.replicate 32 1, List.replicate 32 2⟩) =
        Except.ok ⟨List.replicate 32 0, List.replicate 32 1, List.replicate 32 2⟩ := by
  constructor
  · exact c6_parse_toString_roundtrip.1 k4Header localTag [10, 20] (by decide)
  · refine c6_parse_toString_roundtrip.2.2
      ⟨List.replicate 32 0, List.replicate 32 1, List.replicate 32 2⟩
      (by decide) (by decide) (by decide) ?_
    decide

/-- Length-check behaviour of the sealed parser, generic in header and
region lengths. -/
theorem sealed_length_checks_aux (kh : List Nat) (tagLen epkLen totalLen : Nat)
    (r : List Nat) :
    ((r.length + 3) / 4 * 3 ≠ totalLen →
      sealedFromStr kh tagLen epkLen totalLen (kh ++ sealTag ++ r) =
        Except.error (PasetoError.PayloadBase64Decode DecodeError.InvalidLength)) ∧
    (∀ bytes, b64DecodeBytes r = Except.ok bytes → bytes.length ≠ totalLen →
      sealedFromStr kh tagLen epkLen totalLen (kh ++ sealTag ++ r) =
        Except.error (PasetoError.PayloadBase64Decode DecodeError.InvalidLength)) ∧
    (∀ parts, sealedFromStr kh tagLen epkLen totalLen (kh ++ sealTag ++ r) =
        Except.ok parts →
      ∃ bytes, b64DecodeBytes r = Except.ok bytes ∧ bytes.length = totalLen ∧
        parts = split_total tagLen epkLen bytes) := by
  unfold sealedFromStr
  simp only [List.append_assoc, dropHeader_append]
  refine ⟨fun hpre => ?_, fun bytes hdec hlen => ?_, fun parts hok => ?_⟩
  · rw [if_pos hpre]
  · by_cases hpre : (r.length + 3) / 4 * 3 ≠ totalLen
    · rw [if_pos hpre]
    · rw [if_neg hpre]
      simp only [hdec]
      rw [if_pos hlen]
  · by_cases hpre : (r.length + 3) / 4 * 3 ≠ totalLen
    · rw [if_pos hpre] at hok
      exact absurd hok (by simp)
    · rw [if_neg hpre] at hok
      cases hdec : b64DecodeBytes r with
      | error e =>
        simp only [hdec] at hok
        exact absurd hok (by simp)
      | ok bytes =>
        simp only [hdec] at hok
        by_cases hlen : bytes.length ≠ totalLen
        · rw [if_pos hlen] at hok
          exact absurd hok (by simp)
        · rw [if_neg hlen] at hok
          refine ⟨bytes, rfl, by omega, ?_⟩
          injection hok with h
          exact h.symm

/-- Claim C7: with correct `"kN.seal."` prefixes, the sealed parser
rejects with `InvalidLength` whenever the payload length rounded up to
a Base64 quartet does not produce the version's total (129 for V3, 96
for V4) or the decoded byte count differs from the total, and only
payloads decoding to exactly the total produce a `SealedKey`.  The
parser performs no curve operation: `sealedFromStr` takes no
cryptographic primitives at all. -/
theorem c7_sealed_parse_length_checks (r : List Nat) :
    (((r.length + 3) / 4 * 3 ≠ 129 →
      sealedFromStrV3 (k3Header ++ sealTag ++ r) =
        Except.error (PasetoError.PayloadBase64Decode DecodeError.InvalidLength)) ∧
    (∀ bytes, b64DecodeBytes r = Except.ok bytes → bytes.length ≠ 129 →
      sealedFromStrV3 (k3Header ++ sealTag ++ r) =
        Except.error (PasetoError.PayloadBase64Decode DecodeError.InvalidLength)) ∧
    (∀ parts, sealedFromStrV3 (k3Header ++ sealTag ++ r) = Except.ok parts →
      ∃ bytes, b64DecodeBytes r = Except.ok bytes ∧ bytes.length = 129 ∧
        parts = split_total 48 49 bytes)) ∧
    (((r.length + 3) / 4 * 3 ≠ 96 →
      sealedFromStrV4 (k4Header ++ sealTag ++ r) =
        Except.error (PasetoError.PayloadBase64Decode DecodeError.InvalidLength)) ∧
    (∀ bytes, b64DecodeBytes r = Except.ok bytes → bytes.length ≠ 96 →
      sealedFromStrV4 (k4Header ++ sealTag ++ r) =
        Except.error (PasetoError.PayloadBase64Decode DecodeError.InvalidLength)) ∧
    (∀ parts, sealedFromStrV4 (k4Header ++ sealTag ++ r) = Except.ok parts →
      ∃ bytes, b64DecodeBytes r = Except.ok bytes ∧ bytes.length = 96 ∧
        parts = split_total 32 32 bytes)) :=
  ⟨sealed_length_checks_aux k3Header 48 49 129 r,
   sealed_length_checks_aux k4Header 32 32 96 r⟩

/-- Witness for C7: the empty payload has quartet-rounded length 0,
which matches neither total, so both parsers reject it with
`InvalidLength`. -/
theorem c7_witness :
    ((([] : List Nat).length + 3) / 4 * 3 ≠ 129 ∧
      sealedFromStrV3 (k3Header ++ sealTag ++ ([] : List Nat)) =
        Except.error (PasetoError.PayloadBase64Decode DecodeError.InvalidLength)) ∧
    sealedFromStrV4 (k4Header ++ sealTag ++ ([] : List Nat)) =
      Except.error (PasetoError.PayloadBase64Decode DecodeError.InvalidLength) :=
  ⟨⟨by decide, (c7_sealed_parse_length_checks ([] : List Nat)).1.1 (by decide)⟩,
   (c7_sealed_parse_length_checks ([] : List Nat)).2.1 (by decide)⟩

/-- Claim C8: both parsers fail with `WrongHeader` when the version
header or the type tag is absent or mismatched, before decoding any
payload (the payload is never inspected in those branches); in
particular a V3 sealed string parsed as `SealedKey<V4>` fails with
`WrongHeader`. -/
theorem c8_wrong_header :
    (∀ kh ktag : List Nat, ∀ keyLen : Nat, ∀ s : List Nat, dropHeader kh s = none →
      plaintextFromStr kh ktag keyLen s = Except.error PasetoError.WrongHeader) ∧
    (∀ kh ktag : List Nat, ∀ keyLen : Nat, ∀ r : List Nat, dropHeader ktag r = none →
      plaintextFromStr kh ktag keyLen (kh ++ r) = Except.error PasetoError.WrongHeader) ∧
    (∀ kh : List Nat, ∀ tagLen epkLen totalLen : Nat, ∀ s : List Nat,
      dropHeader kh s = none →
      sealedFromStr kh tagLen epkLen totalLen s = Except.error PasetoError.WrongHeader) ∧
    (∀ kh : List Nat, ∀ tagLen epkLen totalLen : Nat, ∀ r : List Nat,
      dropHeader sealTag r = none →
      sealedFromStr kh tagLen epkLen totalLen (kh ++ r) =
        Except.error PasetoError.WrongHeader) ∧
    (∀ r : List Nat, sealedFromStrV4 (k3Header ++ sealTag ++ r) =
      Except.error PasetoError.WrongHeader) := by
  refine ⟨?_, ?_, ?_, ?_, ?_⟩
  · intro kh ktag keyLen s h
    unfold plaintextFromStr
    rw [h]
  · intro kh ktag keyLen r h
    unfold plaintextFromStr
    simp only [dropHeader_append, h]
  · intro kh tagLen epkLen totalLen s h
    unfold sealedFromStr
    rw [h]
  · intro kh tagLen epkLen totalLen r h
    unfold sealedFromStr
    simp only [dropHeader_append, h]
  · intro r
    unfold sealedFromStrV4 sealedFromStr
    have hk : dropHeader k4Header (k3Header ++ sealTag ++ r) = none := by
      simp [k3Header, k4Header, sealTag, dropHeader]
    rw [hk]

/-- Witness for C8 at concrete strings: a plaintext parse with a bad
version byte, and a V3 sealed string handed to the V4 parser. -/
theorem c8_witness :
    (dropHeader k4Header [0, 1, 2] = none ∧
      plaintextFromStr k4Header localTag 32 [0, 1, 2] =
        Except.error PasetoError.WrongHeader) ∧
    sealedFromStrV4 (k3Header ++ sealTag ++ List.replicate 172 65) =
      Except.error PasetoError.WrongHeader :=
  ⟨⟨by decide, c8_wrong_header.1 k4Header localTag 32 [0, 1, 2] (by decide)⟩,
   c8_wrong_header.2.2.2.2 (List.replicate 172 65)⟩

/-- `encode_v1_v3` of `src/id.rs`: hash `header ∥ header2 ∥ b64(key)`
with SHA-384 (passed abstractly), keep the first 33 bytes `d`, output
`header ∥ b64(d)`.  For `key.len() ≤ 64` the code Base64-encodes into
an 85-byte stack buffer and unwraps; a key whose encoding would not
fit (exactly length 64) would panic, modelled as `none`. -/
def encode_v1_v3 (sha384 : List Nat → List Nat) (header header2 key : List Nat) :
    Option (List Nat) :=
  if key.length ≤ 64 ∧ b64Len key.length > 85 then none
  else
    some (header ++ b64Encode ((sha384 (header ++ header2 ++ b64Encode key)).take 33))

/-- `encode_v2_v4` of `src/id.rs`: hash the same concatenation with
BLAKE2b configured for 33-byte output (passed abstractly), output
`header ∥ b64(d)` with `d` the full digest.  The Base64 stack buffer
here is 89 bytes; a key longer than 66 bytes would panic (`none`). -/
def encode_v2_v4 (blake2b33 : List Nat → List Nat) (header header2 key : List Nat) :
    Option (List Nat) :=
  if b64Len key.length > 89 then none
  else some (header ++ b64Encode (blake2b33 (header ++ header2 ++ b64Encode key)))

/-- Claim C2: for every key of a supported (version, purpose) pair —
header arguments are `KEY_HEADER ∥ ID-mid-fix` and
`KEY_HEADER ∥ HEADER-mid-fix` exactly as `src/id.rs` passes them, and
key lengths are the supported ones (V1/V3 purposes: 32/48/49 bytes;
V2/V4: 32/64 bytes) — `encode_id` returns
`KEY_HEADER ∥ ID-mid-fix ∥ b64(d)` where `d` is the first 33 bytes of
the SHA-384 digest (V1/V3), respectively the full 33-byte BLAKE2b
digest (V2/V4), of
`KEY_HEADER ∥ ID-mid-fix ∥ KEY_HEADER ∥ HEADER-mid-fix ∥ b64(key)`;
`d` has length 33.  Determinism is immediate: both sides are pure
functions of the key and the headers. -/
theorem c2_encode_id :
    (∀ sha384 : List Nat → List Nat, ∀ kh idmf hmf key : List Nat,
      (∀ s, (sha384 s).length = 48) →
      key.length = 32 ∨ key.length = 48 ∨ key.length = 49 →
      encode_v1_v3 sha384 (kh ++ idmf) (kh ++ hmf) key =
          some ((kh ++ idmf) ++
            b64Encode ((sha384 ((kh ++ idmf) ++ (kh ++ hmf) ++ b64Encode key)).take 33)) ∧
        ((sha384 ((kh ++ idmf) ++ (kh ++ hmf) ++ b64Encode key)).take 33).length = 33) ∧
    (∀ blake2b33 : List Nat → List Nat, ∀ kh idmf hmf key : List Nat,
      (∀ s, (blake2b33 s).length = 33) →
      key.length = 32 ∨ key.length = 64 →
      encode_v2_v4 blake2b33 (kh ++ idmf) (kh ++ hmf) key =
          some ((kh ++ idmf) ++
            b64Encode (blake2b33 ((kh ++ idmf) ++ (kh ++ hmf) ++ b64Encode key))) ∧
        (blake2b33 ((kh ++ idmf) ++ (kh ++ hmf) ++ b64Encode key)).length = 33) := by
  constructor
  · intro sha384 kh idmf hmf key hsha hkey
    constructor
    · unfold encode_v1_v3
      rw [if_neg]
      rcases hkey with h | h | h <;> simp [b64Len, h]
    · rw [List.length_take, hsha]
      omega
  · intro blake2b33 kh idmf hmf key hblake hkey
    constructor
    · unfold encode_v2_v4
      rw [if_neg]
      rcases hkey with h | h <;> simp [b64Len, h]
    · exact hblake _

/-- Toy 48-byte digest standing in for SHA-384 in witnesses. -/
def toySha384 (s : List Nat) : List Nat :=
  (List.range 48).map (fun i => (s.sum + i) % 256)

theorem toySha384_length (s : List Nat) : (toySha384 s).length = 48 := by
  simp [toySha384]

/-- Toy 33-byte digest standing in for `Blake2b<U33>` in witnesses. -/
def toyBlake33 (s : List Nat) : List Nat :=
  (List.range 33).map (fun i => (s.sum + i) % 256)

theorem toyBlake33_length (s : List Nat) : (toyBlake33 s).length = 33 := by
  simp [toyBlake33]

/-- Witness for C2: the V3 local-id headers with a 32-byte zero key,
and the V4 local-id headers likewise, under the toy digests. -/
theorem c2_witness :
    (encode_v1_v3 toySha384 (k3Header ++ lidTag) (k3Header ++ localTag)
        (List.replicate 32 0) =
      some ((k3Header ++ lidTag) ++
        b64Encode ((toySha384 ((k3Header ++ lidTag) ++ (k3Header ++ localTag) ++
          b64Encode (List.replicate 32 0))).take 33))) ∧
    encode_v2_v4 toyBlake33 (k4Header ++ lidTag) (k4Header ++ localTag)
        (List.replicate 32 0) =
      some ((k4Header ++ lidTag) ++
        b64Encode (toyBlake33 ((k4Header ++ lidTag) ++ (k4Header ++ localTag) ++
          b64Encode (List.replicate 32 0)))) :=
  ⟨(c2_encode_id.1 toySha384 k3Header lidTag localTag (List.replicate 32 0)
      toySha384_length (Or.inl (by simp))).1,
   (c2_encode_id.2 toyBlake33 k4Header lidTag localTag (List.replicate 32 0)
      toyBlake33_length (Or.inl (by simp))).1⟩

/-- Abstract interface to the external crates used by the V3 engine
(`p384`, `sha2`, `hmac`, `aes`/`ctr`).  P-384 points are identified
with their canonical 49-byte compressed SEC1 encoding:
`p384Valid` models success of `PublicKey::from_sec1_bytes`,
`scalarValid` success of `SecretKey::from_bytes`, `scalarBase` the
compressed encoding of `scalar * G` (used both by
`EphemeralSecret::public_key` and `SecretKey::public_key`), `dh` the
raw 48-byte ECDH shared secret, `aesCtr key iv data` the
`Ctr64BE<Aes256>` keystream application. -/
structure V3Prims where
  p384Valid : List Nat → Bool
  scalarValid : List Nat → Bool
  scalarBase : List Nat → List Nat
  dh : List Nat → List Nat → List Nat
  sha384 : List Nat → List Nat
  hmacSha384 : List Nat → List Nat → List Nat
  aesCtr : List Nat → List Nat → List Nat → List Nat

/-- `<V3 as SealedVersion>::seal` (`src/pke.rs` lines 141-195).
`esk` is the ephemeral scalar drawn from the RNG.  The source unwraps
`PublicKey::from_sec1_bytes(sealing_key)`; an invalid sealing key
therefore panics, modelled as `none`. -/
def v3seal (P : V3Prims) (plaintext_key sealing_key esk : List Nat) : Option SealedParts :=
  if P.p384Valid sealing_key then
    let epk := P.scalarBase esk
    let xk := P.dh esk sealing_key
    let ekn := P.sha384 ([1] ++ k3Header ++ sealTag ++ xk ++ epk ++ sealing_key)
    let ek := ekn.take 32
    let n := ekn.drop 32
    let ak := P.sha384 ([2] ++ k3Header ++ sealTag ++ xk ++ epk ++ sealing_key)
    let edk := P.aesCtr ek n plaintext_key
    let tag := P.hmacSha384 ak (k3Header ++ sealTag ++ epk ++ edk)
    some { tag := tag, ephemeral_public_key := epk, encrypted_data_key := edk }
  else none

/-- `<V3 as SealedVersion>::unseal` (`src/pke.rs` lines 197-253).
The source unwraps `SecretKey::from_bytes(unsealing_key)` and
`PublicKey::from_sec1_bytes(epk)`: an invalid secret scalar or an
ephemeral public key that is not a valid P-384 point panics before
the tag is ever computed, modelled as `none`. -/
def v3unseal (P : V3Prims) (sealed_key : SealedParts) (unsealing_key : List Nat) :
    Option (Except PasetoError (List Nat)) :=
  if P.scalarValid unsealing_key then
    let pk := P.scalarBase unsealing_key
    if P.p384Valid sealed_key.ephemeral_public_key then
      let xk := P.dh unsealing_key sealed_key.ephemeral_public_key
      let ak := P.sha384
        ([2] ++ k3Header ++ sealTag ++ xk ++ sealed_key.ephemeral_public_key ++ pk)
      let tag := P.hmacSha384 ak
        (k3Header ++ sealTag ++ sealed_key.ephemeral_public_key ++
          sealed_key.encrypted_data_key)
      if sealed_key.tag ≠ tag then some (Except.error PasetoError.InvalidSignature)
      else
        let ekn := P.sha384
          ([1] ++ k3Header ++ sealTag ++ xk ++ sealed_key.ephemeral_public_key ++ pk)
        some (Except.ok
          (P.aesCtr (ekn.take 32) (ekn.drop 32) sealed_key.encrypted_data_key))
    else none
  else none

/-- Modelled from the spec: `Key::<V3, Secret>::public_key` lives in
the repository's `lib.rs`, which is not under `src/`; per spec
sections 3 and 6.2 the public counterpart of the 48-byte secret
scalar is its SEC1-compressed public point. -/
def v3publicOf (P : V3Prims) (secret_key : List Nat) : List Nat :=
  P.scalarBase secret_key

/-- Abstract interface to the external crates used by the V4 engine
(`curve25519-dalek`, `x25519-dalek`, `sha2`, `blake2`, `chacha20`).
`edDecompress` models `CompressedEdwardsY::decompress` followed by
`to_montgomery` (yielding X25519 public-key bytes, `none` on
decompression failure), `x25519Base` scalar-times-basepoint,
`x25519 a b` the Diffie-Hellman of scalar `a` with point `b`,
`expandSecret` the SHA-512 expansion of the 32-byte seed truncated to
32 bytes and clamped (`Scalar::from_bits_clamped`), `edPublic` the
compressed Ed25519 public key of a seed (used by `public_key()`),
`blake2b32`/`blake2b24` the 32- and 24-byte `Blake2b` digests,
`blake2bMac32 key msg` the keyed `Blake2bMac` tag, and
`xchacha20 key nonce data` the XChaCha20 keystream application. -/
structure V4Prims where
  edDecompress : List Nat → Option (List Nat)
  x25519Base : List Nat → List Nat
  x25519 : List Nat → List Nat → List Nat
  expandSecret : List Nat → List Nat
  edPublic : List Nat → List Nat
  blake2b32 : List Nat → List Nat
  blake2b24 : List Nat → List Nat
  blake2bMac32 : List Nat → List Nat → List Nat
  xchacha20 : List Nat → List Nat → List Nat → List Nat

/-- `<V4 as SealedVersion>::seal` (`src/pke.rs` lines 278-337).
`esk` is the ephemeral X25519 secret drawn from the RNG.  The source
unwraps `pk.decompress()`; a sealing key failing Edwards
decompression panics, modelled as `none`. -/
def v4seal (P : V4Prims) (plaintext_key sealing_key esk : List Nat) : Option SealedParts :=
  match P.edDecompress sealing_key with
  | none => none
  | some xpk =>
    let epk := P.x25519Base esk
    let xk := P.x25519 esk xpk
    let ek := P.blake2b32 ([1] ++ k4Header ++ sealTag ++ xk ++ epk ++ xpk)
    let ak := P.blake2b32 ([2] ++ k4Header ++ sealTag ++ xk ++ epk ++ xpk)
    let n := P.blake2b24 (epk ++ xpk)
    let edk := P.xchacha20 ek n plaintext_key
    let tag := P.blake2bMac32 ak (k4Header ++ sealTag ++ epk ++ edk)
    some { tag := tag, ephemeral_public_key := epk, encrypted_data_key := edk }

/-- `<V4 as SealedVersion>::unseal` (`src/pke.rs` lines 339-399).
Every 32-byte ephemeral public key is accepted as an X25519 point, so
this path is total: it returns an error only from the tag check. -/
def v4unseal (P : V4Prims) (sealed_key : SealedParts) (unsealing_key : List Nat) :
    Except PasetoError (List Nat) :=
  let epk := sealed_key.ephemeral_public_key
  let xsk := P.expandSecret (unsealing_key.take 32)
  let xpk := P.x25519Base xsk
  let xk := P.x25519 xsk epk
  let ak := P.blake2b32 ([2] ++ k4Header ++ sealTag ++ xk ++ epk ++ xpk)
  let t2 := P.blake2bMac32 ak
    (k4Header ++ sealTag ++ epk ++ sealed_key.encrypted_data_key)
  if sealed_key.tag ≠ t2 then Except.error PasetoError.InvalidSignature
  else
    let ek := P.blake2b32 ([1] ++ k4Header ++ sealTag ++ xk ++ epk ++ xpk)
    let n := P.blake2b24 (epk ++ xpk)
    Except.ok (P.xchacha20 ek n sealed_key.encrypted_data_key)

/-- Modelled from the spec: `Key::<V4, Secret>::public_key` lives in
the repository's `lib.rs`, which is not under `src/`; per spec
sections 3 and 6.2 the 64-byte secret is seed ∥ derived public, the
public counterpart being the Ed25519 public key of the seed. -/
def v4publicOf (P : V4Prims) (secret_key : List Nat) : List Nat :=
  P.edPublic (secret_key.take 32)

/-- The authentication tag V3 `unseal` recomputes over
`KEY_HEADER ∥ "seal." ∥ epk ∥ edk` (keyed with the `ak` derived from
the `0x02` domain). -/
def v3AuthTag (P : V3Prims) (unsealing_key epk edk : List Nat) : List Nat :=
  let pk := P.scalarBase unsealing_key
  let xk := P.dh unsealing_key epk
  let ak := P.sha384 ([2] ++ k3Header ++ sealTag ++ xk ++ epk ++ pk)
  P.hmacSha384 ak (k3Header ++ sealTag ++ epk ++ edk)

/-- The decryption V3 `unseal` performs after the tag check. -/
def v3DecryptBody (P : V3Prims) (sealed_key : SealedParts) (unsealing_key : List Nat) :
    List Nat :=
  let pk := P.scalarBase unsealing_key
  let xk := P.dh unsealing_key sealed_key.ephemeral_public_key
  let ekn := P.sha384
    ([1] ++ k3Header ++ sealTag ++ xk ++ sealed_key.ephemeral_public_key ++ pk)
  P.aesCtr (ekn.take 32) (ekn.drop 32) sealed_key.encrypted_data_key

/-- The authentication tag V4 `unseal` recomputes. -/
def v4AuthTag (P : V4Prims) (unsealing_key epk edk : List Nat) : List Nat :=
  let xsk := P.expandSecret (unsealing_key.take 32)
  let xpk := P.x25519Base xsk
  let xk := P.x25519 xsk epk
  let ak := P.blake2b32 ([2] ++ k4Header ++ sealTag ++ xk ++ epk ++ xpk)
  P.blake2bMac32 ak (k4Header ++ sealTag ++ epk ++ edk)

/-- The decryption V4 `unseal` performs after the tag check. -/
def v4DecryptBody (P : V4Prims) (sealed_key : SealedParts) (unsealing_key : List Nat) :
    List Nat :=
  let epk := sealed_key.ephemeral_public_key
  let xsk := P.expandSecret (unsealing_key.take 32)
  let xpk := P.x25519Base xsk
  let xk := P.x25519 xsk epk
  let ek := P.blake2b32 ([1] ++ k4Header ++ sealTag ++ xk ++ epk ++ xpk)
  let n := P.blake2b24 (epk ++ xpk)
  P.xchacha20 ek n sealed_key.encrypted_data_key

theorem v3unseal_spec (P : V3Prims) (sealed_key : SealedParts) (unsealing_key : List Nat) :
    v3unseal P sealed_key unsealing_key =
      if P.scalarValid unsealing_key then
        if P.p384Valid sealed_key.ephemeral_public_key then
          if sealed_key.tag ≠ v3AuthTag P unsealing_key sealed_key.ephemeral_public_key
              sealed_key.encrypted_data_key then
            some (Except.error PasetoError.InvalidSignature)
          else some (Except.ok (v3DecryptBody P sealed_key unsealing_key))
        else none
      else none := rfl

theorem v4unseal_spec (P : V4Prims) (sealed_key : SealedParts) (unsealing_key : List Nat) :
    v4unseal P sealed_key unsealing_key =
      if sealed_key.tag ≠ v4AuthTag P unsealing_key sealed_key.ephemeral_public_key
          sealed_key.encrypted_data_key then
        Except.error PasetoError.InvalidSignature
      else Except.ok (v4DecryptBody P sealed_key unsealing_key) := rfl

/-- Claim C1 (as provable about the code): for both versions, given the
algebraic facts the real primitives satisfy — Diffie-Hellman agreement
`dh a (base b) = dh b (base a)`, involution of the keystream cipher,
for V3 that valid scalars have valid public points, for V4 the
birational Edwards/Montgomery correspondence — unsealing the result of
sealing a local key under the public key derived from a secret key,
with that secret key, returns the original local key, for every
ephemeral RNG draw (V3 ephemeral scalars are valid by construction,
reflected by the `scalarValid esk` hypothesis). -/
theorem c1_seal_unseal_roundtrip :
    (∀ P : V3Prims,
      (∀ a b, P.dh a (P.scalarBase b) = P.dh b (P.scalarBase a)) →
      (∀ k n m, P.aesCtr k n (P.aesCtr k n m) = m) →
      (∀ s, P.scalarValid s = true → P.p384Valid (P.scalarBase s) = true) →
      ∀ local_key secret_key esk : List Nat,
        P.scalarValid secret_key = true → P.scalarValid esk = true →
        (v3seal P local_key (v3publicOf P secret_key) esk).map
            (fun sealed => v3unseal P sealed secret_key) =
          some (some (Except.ok local_key))) ∧
    (∀ P : V4Prims,
      (∀ a b, P.x25519 a (P.x25519Base b) = P.x25519 b (P.x25519Base a)) →
      (∀ k n m, P.xchacha20 k n (P.xchacha20 k n m) = m) →
      (∀ seed, P.edDecompress (P.edPublic seed) =
        some (P.x25519Base (P.expandSecret seed))) →
      ∀ local_key secret_key esk : List Nat,
        (v4seal P local_key (v4publicOf P secret_key) esk).map
            (fun sealed => v4unseal P sealed secret_key) =
          some (Except.ok local_key)) := by
  constructor
  · intro P hdh hctr hbase local_key secret_key esk hsk hesk
    have hpk : P.p384Valid (P.scalarBase secret_key) = true := hbase secret_key hsk
    have hepk : P.p384Valid (P.scalarBase esk) = true := hbase esk hesk
    unfold v3seal v3publicOf
    rw [if_pos hpk]
    simp only [Option.map_some']
    unfold v3unseal
    rw [if_pos hsk]
    simp only
    rw [if_pos hepk]
    rw [hdh secret_key esk]
    simp only [ne_eq, not_true_eq_false, if_neg, ite_false, if_false]
    rw [hctr]
  · intro P hdh hcha hbir local_key secret_key esk
    unfold v4seal v4publicOf
    rw [hbir (secret_key.take 32)]
    simp only [Option.map_some']
    unfold v4unseal
    simp only
    rw [hdh (P.expandSecret (secret_key.take 32)) esk]
    simp only [ne_eq, not_true_eq_false, if_neg, ite_false, if_false]
    rw [hcha]

/-- Toy instantiation of the V3 primitive bundle for witnesses:
scalars are arbitrary byte lists, a public point is `2 ::` scalar
(mirroring the compressed SEC1 tag byte), validity of a point is
having tag byte 2, the shared secret is the sum of the two scalars,
and the keystream cipher XORs every byte with a key/nonce-derived
constant. -/
def toyV3Prims : V3Prims :=
  { p384Valid := fun l => match l with | 2 :: _ => true | _ => false
    scalarValid := fun _ => true
    scalarBase := fun s => 2 :: s
    dh := fun a b => [a.sum + (b.drop 1).sum]
    sha384 := toySha384
    hmacSha384 := fun k m => [(k.sum + m.sum) % 256]
    aesCtr := fun k n m => m.map (fun b => b ^^^ ((k.sum + n.sum) % 256)) }

/-- XORing every byte with a constant is an involution. -/
theorem toyXor_invol (c : Nat) :
    ∀ m : List Nat, (m.map (fun b => b ^^^ c)).map (fun b => b ^^^ c) = m
  | [] => rfl
  | b :: rest => by
    simp [toyXor_invol c rest, Nat.xor_assoc]

theorem toyV3_dh_comm (a b : List Nat) :
    toyV3Prims.dh a (toyV3Prims.scalarBase b) = toyV3Prims.dh b (toyV3Prims.scalarBase a) := by
  simp [toyV3Prims, Nat.add_comm]

theorem toyV3_ctr_inv (k n m : List Nat) :
    toyV3Prims.aesCtr k n (toyV3Prims.aesCtr k n m) = m :=
  toyXor_invol _ m

theorem toyV3_base_valid (s : List Nat) (_h : toyV3Prims.scalarValid s = true) :
    toyV3Prims.p384Valid (toyV3Prims.scalarBase s) = true := rfl

/-- Toy instantiation of the V4 primitive bundle for witnesses:
X25519 scalars and points are arbitrary byte lists with basepoint
multiplication the identity, an Ed25519 public key is `0 ::` the
expanded seed (and decompression strips the `0`, so the birational
law holds), the shared secret is the sum of the two sides, and
XChaCha20 XORs with a key/nonce-derived constant. -/
def toyV4Prims : V4Prims :=
  { edDecompress := fun l => match l with | 0 :: rest => some rest | _ => none
    x25519Base := fun s => s
    x25519 := fun a b => [a.sum + b.sum]
    expandSecret := fun s => s.take 32
    edPublic := fun seed => 0 :: seed.take 32
    blake2b32 := fun s => [s.sum % 256]
    blake2b24 := fun s => [s.sum % 256, 1]
    blake2bMac32 := fun k m => [(k.sum + m.sum) % 256]
    xchacha20 := fun k n m => m.map (fun b => b ^^^ ((k.sum + n.sum) % 256)) }

theorem toyV4_dh_comm (a b : List Nat) :
    toyV4Prims.x25519 a (toyV4Prims.x25519Base b) =
      toyV4Prims.x25519 b (toyV4Prims.x25519Base a) := by
  simp [toyV4Prims, Nat.add_comm]

theorem toyV4_xchacha_inv (k n m : List Nat) :
    toyV4Prims.xchacha20 k n (toyV4Prims.xchacha20 k n m) = m :=
  toyXor_invol _ m

theorem toyV4_birational (seed : List Nat) :
    toyV4Prims.edDecompress (toyV4Prims.edPublic seed) =
      some (toyV4Prims.x25519Base (toyV4Prims.expandSecret seed)) := rfl

/-- Witness for C1 at the toy primitives and concrete keys. -/
theorem c1_witness :
    (v3seal toyV3Prims [5] (v3publicOf toyV3Prims [7]) [3]).map
        (fun sealed => v3unseal toyV3Prims sealed [7]) =
      some (some (Except.ok [5])) ∧
    (v4seal toyV4Prims [5] (v4publicOf toyV4Prims [7]) [3]).map
        (fun sealed => v4unseal toyV4Prims sealed [7]) =
      some (Except.ok [5]) :=
  ⟨c1_seal_unseal_roundtrip.1 toyV3Prims toyV3_dh_comm toyV3_ctr_inv toyV3_base_valid
      [5] [7] [3] rfl rfl,
   c1_seal_unseal_roundtrip.2 toyV4Prims toyV4_dh_comm toyV4_xchacha_inv toyV4_birational
      [5] [7] [3]⟩

/-- Claim C3 (as provable about the code): whenever V3 `unseal`
reaches the tag comparison — which requires the secret key to parse
as a valid scalar and the stored epk to parse as a valid P-384 point,
since the source unwraps both parses — a mismatch between the stored
tag and the recomputed `v3AuthTag` yields exactly
`Err(InvalidSignature)`, and only a match proceeds to the decryption;
V4 `unseal` satisfies the same unconditionally.  In both definitions
the error branch precedes the derivation of the encryption key and
the keystream application, mirroring the source order
(encrypt-then-MAC). -/
theorem c3_tag_check_gates_unseal :
    (∀ P : V3Prims, ∀ sealed : SealedParts, ∀ uk : List Nat,
      P.scalarValid uk = true →
      P.p384Valid sealed.ephemeral_public_key = true →
      (sealed.tag ≠ v3AuthTag P uk sealed.ephemeral_public_key
          sealed.encrypted_data_key →
        v3unseal P sealed uk = some (Except.error PasetoError.InvalidSignature)) ∧
      (sealed.tag = v3AuthTag P uk sealed.ephemeral_public_key
          sealed.encrypted_data_key →
        v3unseal P sealed uk = some (Except.ok (v3DecryptBody P sealed uk)))) ∧
    (∀ P : V4Prims, ∀ sealed : SealedParts, ∀ uk : List Nat,
      (sealed.tag ≠ v4AuthTag P uk sealed.ephemeral_public_key
          sealed.encrypted_data_key →
        v4unseal P sealed uk = Except.error PasetoError.InvalidSignature) ∧
      (sealed.tag = v4AuthTag P uk sealed.ephemeral_public_key
          sealed.encrypted_data_key →
        v4unseal P sealed uk = Except.ok (v4DecryptBody P sealed uk))) := by
  constructor
  · intro P sealed uk hsk hepk
    rw [v3unseal_spec, if_pos hsk, if_pos hepk]
    constructor
    · intro hne
      rw [if_pos hne]
    · intro heq
      rw [if_neg (not_not_intro heq)]
  · intro P sealed uk
    rw [v4unseal_spec]
    constructor
    · intro hne
      rw [if_pos hne]
    · intro heq
      rw [if_neg (not_not_intro heq)]

/-- Counterexample to C3 as stated: under the toy primitives, a V3
sealed envelope whose 49-byte epk region is all zero bytes — not a
valid compressed SEC1 point, mirroring that all-zero 49 bytes fail
`PublicKey::from_sec1_bytes` — makes `unseal` panic (`none`): no tag
is recomputed and no `InvalidSignature` is returned, even though the
stored tag does not match any recomputable tag.  The claim's
"for every sealed envelope ... recomputes ... compares ... returns
InvalidSignature" therefore fails at this input. -/
theorem c3_counterexample :
    v3unseal toyV3Prims
      ⟨List.replicate 48 3, List.replicate 49 0, List.replicate 32 0⟩
      (List.replicate 48 1) = none := rfl

/-- Witness for C3 at concrete envelopes: the two-byte stored tag can
never equal the one-byte toy MAC, so both versions report
`InvalidSignature`. -/
theorem c3_witness :
    toyV3Prims.scalarValid [7] = true ∧
    toyV3Prims.p384Valid [2, 9] = true ∧
    v3unseal toyV3Prims ⟨[255, 255], [2, 9], [1, 2]⟩ [7] =
      some (Except.error PasetoError.InvalidSignature) ∧
    v4unseal toyV4Prims ⟨[255, 255], [4], [6]⟩ [8] =
      Except.error PasetoError.InvalidSignature :=
  ⟨rfl, rfl,
   (c3_tag_check_gates_unseal.1 toyV3Prims ⟨[255, 255], [2, 9], [1, 2]⟩ [7] rfl rfl).1
     (by decide),
   (c3_tag_check_gates_unseal.2 toyV4Prims ⟨[255, 255], [4], [6]⟩ [8]).1 (by decide)⟩

/-- Claim C4, evaluated at the failing input: a V3 sealed envelope
whose epk region (49 zero bytes, reachable from a genuine envelope by
bit flips in the epk region) is not a valid P-384 point makes V3
`unseal` panic — `PublicKey::from_sec1_bytes(...).unwrap()` at
`src/pke.rs` line 210 — instead of returning `InvalidSignature` or
any error, with a valid secret key.  (`none` models the panic.) -/
theorem c4_unseal_panics_on_invalid_epk :
    v3unseal toyV3Prims
      ⟨List.replicate 48 0, List.replicate 49 0, List.replicate 32 0⟩
      (List.replicate 48 2) = none := rfl

/-- Claim C5 (as provable about the code): `seal` has no error
channel at all — its Rust signature returns `SealedKey<V>`, not a
`Result` — and on malformed recipient key bytes it panics (`.unwrap()`
on the curve parse), modelled as `none`: V3 when the 49 bytes are not
a valid SEC1 point, V4 when Edwards decompression fails.  So sealing
never succeeds with a malformed key, but it does not return
`InvalidKey` (or any error). -/
theorem c5_seal_panics_on_malformed_pk :
    (∀ P : V3Prims, ∀ pdk pk esk : List Nat, P.p384Valid pk = false →
      v3seal P pdk pk esk = none) ∧
    (∀ P : V4Prims, ∀ pdk pk esk : List Nat, P.edDecompress pk = none →
      v4seal P pdk pk esk = none) := by
  constructor
  · intro P pdk pk esk h
    unfold v3seal
    rw [if_neg (by simp [h])]
  · intro P pdk pk esk h
    unfold v4seal
    rw [h]

/-- Counterexample to C5 as stated: at the toy primitives, sealing
under a malformed recipient key (all-zero 49 bytes for V3, a 32-byte
string failing Edwards decompression for V4) evaluates to `none` —
the model of the Rust panic — and in particular not to any error
value such as `InvalidKey`: the `seal` return type contains no error
at all. -/
theorem c5_counterexample :
    v3seal toyV3Prims (List.replicate 32 1) (List.replicate 49 0)
        (List.replicate 48 1) = none ∧
    v4seal toyV4Prims (List.replicate 32 1) (List.replicate 32 1)
        (List.replicate 32 2) = none := by
  constructor
  · decide
  · decide

/-- Witness for C5's amended statement at concrete malformed keys. -/
theorem c5_witness :
    toyV3Prims.p384Valid [0] = false ∧ v3seal toyV3Prims [2] [0] [3] = none ∧
    toyV4Prims.edDecompress [9] = none ∧ v4seal toyV4Prims [2] [9] [3] = none :=
  ⟨rfl, c5_seal_panics_on_malformed_pk.1 toyV3Prims [2] [0] [3] rfl,
   rfl, c5_seal_panics_on_malformed_pk.2 toyV4Prims [2] [9] [3] rfl⟩

/-- Claim C10: V4 `unseal` is total and its only error branch is the
tag comparison — for every envelope and secret key it returns either
`Err(InvalidSignature)` or `Ok` of the decrypted key; no other
discriminant (in particular `InvalidKey`) is possible, since every
32-byte epk is accepted as an X25519 public key. -/
theorem c10_v4_unseal_error_unique (P : V4Prims) (sealed : SealedParts) (uk : List Nat) :
    v4unseal P sealed uk = Except.error PasetoError.InvalidSignature ∨
      ∃ k, v4unseal P sealed uk = Except.ok k := by
  rw [v4unseal_spec]
  by_cases h : sealed.tag ≠ v4AuthTag P uk sealed.ephemeral_public_key
      sealed.encrypted_data_key
  · left
    rw [if_pos h]
  · right
    exact ⟨_, by rw [if_neg h]⟩
